import Mathlib

/-
Shallow embedding of the NEAR factory contract
(src/contract/src/contract.ts) and verification of its
natural-language specification.

The contract stores a compiled child contract (`code`), exposes
`update_stored_contract` (privileged replacement of the payload),
`get_code` (read), `create_factory_subaccount_and_deploy` (provision a
sub-account, fund it, deploy the payload, init it, optionally add a
full-access key, and chain a callback), and
`create_factory_subaccount_and_deploy_callback` (reconcile the batch
outcome).

Modelling conventions:
- yoctoNEAR amounts and gas are `Nat` (the TS code uses non-negative
  `bigint`, so no overflow or sign is involved).
- the payload is a `String`, exactly as in the TS source
  (`code: string`, where each byte of the wasm binary is one
  latin1 character, so `code.length` is the byte count);
- host interaction (`near.currentAccountId`, `near.predecessorAccountId`,
  `near.attachedDeposit`, `near.input`) is an explicit `Env` record;
- a thrown JS `assert` is an `Except.error` carrying the error taxonomy
  of the specification (`InvalidNameError`, `InsufficientFundsError`,
  `AuthorizationError`, `EmptyInputError`); on `Except.error` the
  platform aborts the call and rolls back state, so an error result
  leaves the contract state untouched;
- a `NearPromise` batch is a target account plus the ordered list of
  appended actions; `promise.then(p)` is a `Dispatch` of the batch plus
  its continuation, which the platform runs strictly after the batch
  settles, whether the batch succeeded or failed.
-/

/-- Storage cost per byte of code, `NEAR_PER_STORAGE = 10n ** 19n`
yoctoNEAR, from contract.ts line 14. -/
def NEAR_PER_STORAGE : Nat := 10 ^ 19

/-- One teragas, `TGAS = 10n ** 12n`, from contract.ts line 16. -/
def TGAS : Nat := 10 ^ 12

/-- Zero attached deposit, `NO_DEPOSIT = 0n`, from contract.ts line 17. -/
def NO_DEPOSIT : Nat := 0

/-- Modelled from the spec: the repository bundles a compiled donation
contract (`includeBytes("./donation-contract/donation.wasm")`,
contract.ts line 15) as the initial payload, but the wasm binary itself
is not among the provided source files. The spec states the store
"always contains a valid, deployable payload (initialized to a default
at process start)"; only its non-emptiness matters below, so the
standard 8-byte wasm header stands in for the full binary. -/
def DEFAULT_CONTRACT : String :=
  String.mk [Char.ofNat 0, Char.ofNat 97, Char.ofNat 115, Char.ofNat 109,
    Char.ofNat 1, Char.ofNat 0, Char.ofNat 0, Char.ofNat 0]

/-- Contract state: the single persisted field `code: string`
(contract.ts line 25), the stored child-contract payload. -/
structure HelloNear where
  code : String
deriving DecidableEq

/-- Host environment of one call: the values the method reads through
the `near` API (`near.currentAccountId()`, `near.predecessorAccountId()`,
`near.attachedDeposit()`). -/
structure Env where
  currentAccountId : String
  predecessorAccountId : String
  attachedDeposit : Nat
deriving DecidableEq

/-- Error taxonomy of the specification. Each constructor corresponds
to one failing `assert` in the source (or to the private-function guard
generated by the `@call({ privateFunction: true })` decorator):
`invalidName` for "Invalid subaccount", `insufficientFunds` for
"Attach at least ... yN" (the message carries the computed requirement,
kept here as a field), `authorization` for the private-caller guard,
`emptyInput` for "Error: No input". -/
inductive FactoryError where
  | invalidName : FactoryError
  | insufficientFunds (required : Nat) : FactoryError
  | authorization : FactoryError
  | emptyInput : FactoryError
deriving DecidableEq

/- ----------------------------------------------------------------
Account-id validation, embedded from near-sdk-js `validateAccountId`:
  accountId.length >= 2 && accountId.length <= 64 &&
  /^(([a-z\d]+[\-_])*[a-z\d]+\.)*([a-z\d]+[\-_])*[a-z\d]+$/.test(accountId)
The regex is rendered as an executable matcher: the full string is a
dot-separated non-empty sequence of parts, and each part matches
`([a-z\d]+[-_])*[a-z\d]+` (the two alternatives of `matchPartRest`
transcribe "continue the current alnum run" and "one separator, then a
fresh run"; they are disjoint since an alnum is never a separator).
---------------------------------------------------------------- -/

/-- Character class `[a-z\d]` of the account-id regex. -/
def isAlnumLower (c : Char) : Bool :=
  (decide (Char.ofNat 97 ≤ c) && decide (c ≤ Char.ofNat 122)) ||
    (decide (Char.ofNat 48 ≤ c) && decide (c ≤ Char.ofNat 57))

/-- Character class `[-_]` of the account-id regex. -/
def isSep (c : Char) : Bool :=
  decide (c = Char.ofNat 45) || decide (c = Char.ofNat 95)

mutual

/-- Matches `([a-z\d]+[-_])*[a-z\d]+` against a whole part: the part
must begin with an alnum and continue per `matchPartRest`. -/
def matchPart : List Char → Bool
  | [] => false
  | c :: rest => isAlnumLower c && matchPartRest rest

/-- Continuation of `matchPart`: either the part ends, or the next
character extends the current alnum run, or a single separator starts a
new mandatory alnum run. -/
def matchPartRest : List Char → Bool
  | [] => true
  | c :: rest =>
      (isAlnumLower c && matchPartRest rest) || (isSep c && matchPart rest)

end

/-- Splits a character list on the literal dot, keeping empty
components, exactly as the regex `(part\.)*part` decomposes the
string: the string matches iff every component of this split matches
`part`. -/
def splitOnDot : List Char → List (List Char)
  | [] => [[]]
  | c :: rest =>
      if c = Char.ofNat 46 then
        [] :: splitOnDot rest
      else
        match splitOnDot rest with
        | [] => [[c]]
        | p :: ps => (c :: p) :: ps

/-- near-sdk-js `validateAccountId`: length between 2 and 64 and the
account-id regex matches. (JS `String.prototype.length` counts UTF-16
units while `String.length` here counts code points; they agree on all
strings the regex can accept, and both sides fail on any string with a
character outside the regex's ASCII classes.) -/
def validateAccountId (accountId : String) : Bool :=
  decide (2 ≤ accountId.length) && decide (accountId.length ≤ 64) &&
    (splitOnDot accountId.data).all matchPart

/- ----------------------------------------------------------------
Promise batches and dispatches.
---------------------------------------------------------------- -/

/-- The init arguments of the deployed donation contract,
`interface DonationInitArgs` (contract.ts lines 19-21). -/
structure DonationInitArgs where
  beneficiary : String
deriving DecidableEq

/-- Arguments of the chained callback (contract.ts lines 83-89):
the derived sub-account, the original caller
(`near.predecessorAccountId()`), and the attached deposit, all captured
by value when the dispatch is built. -/
structure CallbackArgs where
  account : String
  user : String
  attached : Nat
deriving DecidableEq

/-- Serialized function-call arguments. The source serializes both
argument records to JSON with `serialize(...)`; since that encoding is
injective on these records, the embedding keeps the structured value
(tagged by which record it is) instead of the JSON text. -/
inductive CallArgs where
  | donationInit (a : DonationInitArgs) : CallArgs
  | callback (a : CallbackArgs) : CallArgs
deriving DecidableEq

/-- A public key as handed to `addFullAccessKey`. The near-sdk-js
`PublicKey` wraps the raw key data; its internal format validation is
the SDK's concern and the key data is opaque to this contract, so the
embedding keeps the raw string. -/
structure PublicKey where
  data : String
deriving DecidableEq

/-- One batched `NearPromise` action, in the vocabulary the source
uses: `createAccount()`, `transfer(amount)`, `deployContract(code)`,
`functionCall(method, args, deposit, gas)`, `addFullAccessKey(key)`. -/
inductive PromiseAction where
  | createAccount : PromiseAction
  | transfer (amount : Nat) : PromiseAction
  | deployContract (code : String) : PromiseAction
  | functionCall (method : String) (args : CallArgs) (deposit : Nat) (gas : Nat) :
      PromiseAction
  | addFullAccessKey (key : PublicKey) : PromiseAction
deriving DecidableEq

/-- A `NearPromise` batch: the account it targets and the ordered list
of actions appended to it (near-sdk-js promise methods push onto the
batch's action list and return the same promise). -/
structure BatchPromise where
  target : String
  actions : List PromiseAction
deriving DecidableEq

/-- `promise.then(continuation)`: the platform executes `batch`, and
strictly after it settles, success or failure, executes `continuation`.
This is the value `create_factory_subaccount_and_deploy` returns. -/
structure Dispatch where
  batch : BatchPromise
  continuation : BatchPromise
deriving DecidableEq

/- ----------------------------------------------------------------
The four entry points.
---------------------------------------------------------------- -/

/-- `create_factory_subaccount_and_deploy` (contract.ts lines 45-99).
Derives `subaccount = name + "." + currentAccount`, asserts
`validateAccountId(subaccount)` ("Invalid subaccount"), asserts
`attached >= NEAR_PER_STORAGE * code.length` ("Attach at least ..."),
then builds the batch
createAccount / transfer / deployContract / functionCall "init",
appends `addFullAccessKey` when `public_key` is truthy (JS truthiness:
`undefined` and the empty string are falsy), and chains the callback
with the arguments captured at dispatch time. -/
def create_factory_subaccount_and_deploy (st : HelloNear) (env : Env)
    (name : String) (beneficiary : String) (public_key : Option String) :
    Except FactoryError Dispatch :=
  let currentAccount := env.currentAccountId
  let subaccount := name ++ "." ++ currentAccount
  if validateAccountId subaccount then
    let attached := env.attachedDeposit
    let contractBytes := st.code.length
    let minimumNeeded := NEAR_PER_STORAGE * contractBytes
    if minimumNeeded ≤ attached then
      let initArgs : DonationInitArgs := { beneficiary := beneficiary }
      let baseActions : List PromiseAction :=
        [PromiseAction.createAccount,
         PromiseAction.transfer attached,
         PromiseAction.deployContract st.code,
         PromiseAction.functionCall "init" (CallArgs.donationInit initArgs)
           NO_DEPOSIT (TGAS * 5)]
      let actions :=
        match public_key with
        | some pk =>
            if pk = "" then baseActions
            else baseActions ++ [PromiseAction.addFullAccessKey (PublicKey.mk pk)]
        | none => baseActions
      let callbackArgs : CallbackArgs :=
        { account := subaccount
          user := env.predecessorAccountId
          attached := attached }
      Except.ok
        { batch := { target := subaccount, actions := actions }
          continuation :=
            { target := currentAccount
              actions :=
                [PromiseAction.functionCall
                  "create_factory_subaccount_and_deploy_callback"
                  (CallArgs.callback callbackArgs) NO_DEPOSIT (TGAS * 5)] } }
    else Except.error (FactoryError.insufficientFunds minimumNeeded)
  else Except.error FactoryError.invalidName

/-- `update_stored_contract` (contract.ts lines 27-37). The
`@call({ privateFunction: true })` decorator first asserts that the
predecessor is the contract itself; the body then reads the raw call
input (`near.input()` yields the empty string when no input bytes were
attached), asserts it is truthy ("Error: No input"), and stores it
whole-value into `code`. -/
def update_stored_contract (st : HelloNear) (env : Env) (input : String) :
    Except FactoryError HelloNear :=
  if env.predecessorAccountId = env.currentAccountId then
    if input = "" then Except.error FactoryError.emptyInput
    else Except.ok { st with code := input }
  else Except.error FactoryError.authorization

/-- `get_code` (contract.ts lines 39-43): a view returning the stored
payload by value. -/
def get_code (st : HelloNear) : String :=
  st.code

/-- Observable outcome of one callback invocation: the contract state
after the call, the returned boolean, the `near.log` records emitted,
and the promise batches the body issued (the body of the callback
issues none). -/
structure CallbackResult where
  state : HelloNear
  value : Bool
  logs : List String
  issued : List BatchPromise
deriving DecidableEq

/-- `create_factory_subaccount_and_deploy_callback` (contract.ts lines
101-121). Private (predecessor must be the contract itself, per the
decorator). `promiseResult` is the outcome of `near.promiseResult(0)`:
`Except.ok` carries the retrievable result value of promise 0 and
`Except.error` is the host fault thrown when that promise did not
complete successfully; the `try/catch` turns the two into `true` with a
success log and `false` with a failure log. No branch mutates state or
issues a promise. -/
def create_factory_subaccount_and_deploy_callback (st : HelloNear) (env : Env)
    (account : String) (user : String) (attached : Nat)
    (promiseResult : Except Unit String) :
    Except FactoryError CallbackResult :=
  if env.predecessorAccountId = env.currentAccountId then
    match promiseResult with
    | Except.ok _ =>
        Except.ok
          { state := st, value := true
            logs := ["Correctly created and deployed to " ++ account]
            issued := [] }
    | Except.error _ =>
        Except.ok
          { state := st, value := false
            logs := ["Error creating " ++ account ++ ", returning " ++
              toString attached ++ "yⓃ to " ++ user]
            issued := [] }
  else Except.error FactoryError.authorization

/- ----------------------------------------------------------------
Derived notions used by the specification.
---------------------------------------------------------------- -/

/-- The Resource Accountant of the specification: minimum funding for a
payload of the given byte length. `create_factory_subaccount_and_deploy`
computes exactly this value inline as `minimumNeeded` (contract.ts
lines 64-65). Pure by construction. -/
def minimumFunding (payloadSizeBytes : Nat) : Nat :=
  NEAR_PER_STORAGE * payloadSizeBytes

/-- The optional trailing key-grant actions of a provision batch:
present exactly when `public_key` is truthy in JS, i.e. a supplied,
non-empty string (contract.ts lines 77-80). -/
def keyActions : Option String → List PromiseAction
  | some pk =>
      if pk = "" then []
      else [PromiseAction.addFullAccessKey (PublicKey.mk pk)]
  | none => []

/-- Platform semantics of call results: a thrown assert aborts the call
and the platform rolls the state back, so the state advances only on
`Except.ok`. -/
def resultingState (st : HelloNear) (r : Except FactoryError HelloNear) : HelloNear :=
  match r with
  | Except.ok st2 => st2
  | Except.error _ => st

/- ----------------------------------------------------------------
Helper lemmas.
---------------------------------------------------------------- -/

/-- Shape of every successful dispatch: when the derived name is valid
and the attached deposit covers the minimum, the call returns the batch
createAccount / transfer / deployContract / init-call (plus the
optional key grant) against the sub-account, chained with the callback
against the factory. -/
theorem provision_ok_eq (st : HelloNear) (env : Env)
    (name beneficiary : String) (public_key : Option String)
    (hname : validateAccountId (name ++ "." ++ env.currentAccountId) = true)
    (hfund : NEAR_PER_STORAGE * st.code.length ≤ env.attachedDeposit) :
    create_factory_subaccount_and_deploy st env name beneficiary public_key =
      Except.ok
        { batch :=
            { target := name ++ "." ++ env.currentAccountId
              actions :=
                [PromiseAction.createAccount,
                 PromiseAction.transfer env.attachedDeposit,
                 PromiseAction.deployContract st.code,
                 PromiseAction.functionCall "init"
                   (CallArgs.donationInit { beneficiary := beneficiary })
                   NO_DEPOSIT (TGAS * 5)] ++ keyActions public_key }
          continuation :=
            { target := env.currentAccountId
              actions :=
                [PromiseAction.functionCall
                  "create_factory_subaccount_and_deploy_callback"
                  (CallArgs.callback
                    { account := name ++ "." ++ env.currentAccountId
                      user := env.predecessorAccountId
                      attached := env.attachedDeposit })
                  NO_DEPOSIT (TGAS * 5)] } } := by
  unfold create_factory_subaccount_and_deploy
  simp only [hname, if_true, hfund, if_pos]
  cases public_key with
  | none => simp [keyActions]
  | some pk =>
      by_cases hpk : pk = "" <;> simp [keyActions, hpk]

/-- A successful `update_stored_contract` stored exactly the call input,
and that input was non-empty. -/
theorem update_ok_code (st : HelloNear) (env : Env) (input : String)
    (st2 : HelloNear)
    (h : update_stored_contract st env input = Except.ok st2) :
    st2.code = input ∧ input ≠ "" := by
  unfold update_stored_contract at h
  split at h
  · split at h
    · cases h
    · cases h
      next hi => exact ⟨rfl, hi⟩
  · cases h

/-- A successful callback invocation leaves the contract state exactly
as it was. -/
theorem callback_ok_state (st : HelloNear) (env : Env)
    (account user : String) (attached : Nat)
    (promiseResult : Except Unit String) (r : CallbackResult)
    (h : create_factory_subaccount_and_deploy_callback st env account user
      attached promiseResult = Except.ok r) :
    r.state = st := by
  unfold create_factory_subaccount_and_deploy_callback at h
  split at h
  · cases promiseResult <;> cases h <;> rfl
  · cases h

/-- A non-empty payload has positive minimum funding. -/
theorem minimumFunding_pos (s : String) (h : s ≠ "") :
    0 < minimumFunding s.length := by
  cases s with
  | mk data =>
      cases data with
      | nil => exact absurd rfl h
      | cons c cs =>
          unfold minimumFunding NEAR_PER_STORAGE
          exact Nat.mul_pos (by norm_num) (by simp [String.length])

/- ----------------------------------------------------------------
Claim theorems.
---------------------------------------------------------------- -/

/-- C2 (amended): for every attached amount strictly below
`NEAR_PER_STORAGE * payloadLength` (once the grammar-valid derived name
lets the call reach the funding gate), provision fails with
`InsufficientFundsError` carrying the computed requirement and no batch
is dispatched; in particular with a 1000-byte payload the cost per byte
is `NEAR_PER_STORAGE = 10 ^ 19`, so `attached = 9999` aborts reporting
`required = 10 ^ 22`. -/
theorem provision_insufficient_funds_c2 (st : HelloNear) (env : Env)
    (name beneficiary : String) (public_key : Option String)
    (hname : validateAccountId (name ++ "." ++ env.currentAccountId) = true)
    (hlt : env.attachedDeposit < NEAR_PER_STORAGE * st.code.length) :
    create_factory_subaccount_and_deploy st env name beneficiary public_key =
      Except.error
        (FactoryError.insufficientFunds (NEAR_PER_STORAGE * st.code.length)) := by
  simp [create_factory_subaccount_and_deploy, hname, Nat.not_le.mpr hlt]

set_option maxRecDepth 8192 in
/-- Witness for C2: the amended Scenario A, with a 1000-byte payload
and 9999 attached; the reported requirement is
`NEAR_PER_STORAGE * 1000 = 10 ^ 22`. -/
theorem provision_insufficient_funds_witness_c2 :
    create_factory_subaccount_and_deploy
        (HelloNear.mk (String.mk (List.replicate 1000 (Char.ofNat 97))))
        (Env.mk "factory.test" "user.test" 9999) "sub" "bob.test" none =
      Except.error
        (FactoryError.insufficientFunds
          (NEAR_PER_STORAGE *
            (String.mk (List.replicate 1000 (Char.ofNat 97))).length)) :=
  provision_insufficient_funds_c2 _ _ _ _ _ (by decide) (by decide)

/-- C3 (amended): whenever the derived child name fails the account-id
grammar, provision aborts with `InvalidNameError`; the abort happens
before the funding check and before any batch is built, as the result
is this error for every attached deposit and every stored payload. -/
theorem provision_invalid_name_c3 (st : HelloNear) (env : Env)
    (name beneficiary : String) (public_key : Option String)
    (hname : validateAccountId (name ++ "." ++ env.currentAccountId) = false) :
    create_factory_subaccount_and_deploy st env name beneficiary public_key =
      Except.error FactoryError.invalidName := by
  simp [create_factory_subaccount_and_deploy, hname]

/-- Witness for C3: the empty short name derives `".factory.test"`,
which the grammar rejects, and provision aborts with
`InvalidNameError` even with zero attached. -/
theorem provision_invalid_name_witness_c3 :
    create_factory_subaccount_and_deploy (HelloNear.mk "x")
        (Env.mk "factory.test" "user.test" 0) "" "bob.test" none =
      Except.error FactoryError.invalidName :=
  provision_invalid_name_c3 _ _ _ _ _ (by decide)

/-- C7: the requirement reported by provision is exactly
`minimumFunding` of the stored payload's byte length,
`minimumFunding L = NEAR_PER_STORAGE * L` with `NEAR_PER_STORAGE` a
fixed constant, and `minimumFunding` is monotonically non-decreasing
(it is a pure function by construction). -/
theorem minimum_funding_props_c7 :
    (∀ (st : HelloNear) (env : Env) (name beneficiary : String)
        (public_key : Option String) (required : Nat),
      create_factory_subaccount_and_deploy st env name beneficiary public_key =
        Except.error (FactoryError.insufficientFunds required) →
      required = minimumFunding st.code.length) ∧
    (∀ L, minimumFunding L = NEAR_PER_STORAGE * L) ∧
    (∀ L1 L2, L1 ≤ L2 → minimumFunding L1 ≤ minimumFunding L2) := by
  refine ⟨?_, fun L => rfl, fun L1 L2 h => Nat.mul_le_mul_left _ h⟩
  intro st env name beneficiary public_key required h
  simp only [create_factory_subaccount_and_deploy] at h
  split at h
  · split at h
    · cases h
    · simp only [Except.error.injEq, FactoryError.insufficientFunds.injEq] at h
      exact h.symm
  · simp at h

/-- Witness for C7: a concrete run that aborts for lack of funds
reports `minimumFunding 1 = 10 ^ 19`, and `3 ≤ 5` is preserved. -/
theorem minimum_funding_props_witness_c7 :
    (NEAR_PER_STORAGE : Nat) = minimumFunding (HelloNear.mk "x").code.length ∧
    minimumFunding 7 = NEAR_PER_STORAGE * 7 ∧
    minimumFunding 3 ≤ minimumFunding 5 :=
  ⟨minimum_funding_props_c7.1 (HelloNear.mk "x")
      (Env.mk "factory.test" "user.test" 0) "sub" "bob.test" none
      NEAR_PER_STORAGE (by rfl),
   minimum_funding_props_c7.2.1 7,
   minimum_funding_props_c7.2.2 3 5 (by decide)⟩

/-- C8: `update_stored_contract` fails with `AuthorizationError`
whenever the caller is not the factory itself, fails with
`EmptyInputError` when no input bytes are attached, leaves the stored
payload unchanged on either failure (the thrown assert aborts the call),
and on success replaces the payload whole-value with the call input. -/
theorem update_stored_contract_guards_c8 (st : HelloNear) (env : Env)
    (input : String) :
    (env.predecessorAccountId ≠ env.currentAccountId →
      update_stored_contract st env input =
        Except.error FactoryError.authorization) ∧
    (env.predecessorAccountId = env.currentAccountId → input = "" →
      update_stored_contract st env input =
        Except.error FactoryError.emptyInput) ∧
    (∀ e, update_stored_contract st env input = Except.error e →
      resultingState st (update_stored_contract st env input) = st) ∧
    (env.predecessorAccountId = env.currentAccountId → input ≠ "" →
      update_stored_contract st env input =
        Except.ok { st with code := input }) := by
  refine ⟨fun h => ?_, fun h hi => ?_, fun e he => ?_, fun h hi => ?_⟩
  · simp [update_stored_contract, h]
  · simp [update_stored_contract, h, hi]
  · rw [he]
    rfl
  · simp [update_stored_contract, h, hi]

/-- Witness for C8: a foreign caller is rejected with
`AuthorizationError`, and the factory itself replaces the payload. -/
theorem update_stored_contract_guards_witness_c8 :
    update_stored_contract (HelloNear.mk "x")
        (Env.mk "factory.test" "mallory.test" 0) "ab" =
      Except.error FactoryError.authorization ∧
    update_stored_contract (HelloNear.mk "x")
        (Env.mk "factory.test" "factory.test" 0) "ab" =
      Except.ok (HelloNear.mk "ab") :=
  ⟨(update_stored_contract_guards_c8 (HelloNear.mk "x")
      (Env.mk "factory.test" "mallory.test" 0) "ab").1 (by decide),
   (update_stored_contract_guards_c8 (HelloNear.mk "x")
      (Env.mk "factory.test" "factory.test" 0) "ab").2.2.2 rfl (by decide)⟩

/-- C9: `get_code` immediately after a successful
`update_stored_contract` with input `b` returns exactly `b`, and two
sequential successful replacements leave the store holding exactly the
second value. -/
theorem code_roundtrip_c9 :
    (∀ (st : HelloNear) (env : Env) (input : String) (st2 : HelloNear),
      update_stored_contract st env input = Except.ok st2 →
      get_code st2 = input) ∧
    (∀ (st : HelloNear) (env1 env2 : Env) (b1 b2 : String)
        (st1 st2 : HelloNear),
      update_stored_contract st env1 b1 = Except.ok st1 →
      update_stored_contract st1 env2 b2 = Except.ok st2 →
      st2.code = b2) := by
  constructor
  · intro st env input st2 h
    exact (update_ok_code st env input st2 h).1
  · intro st env1 env2 b1 b2 st1 st2 h1 h2
    exact (update_ok_code st1 env2 b2 st2 h2).1

/-- Witness for C9: storing "b1" then "b2" reads back "b1" after the
first call and leaves exactly "b2" after the second. -/
theorem code_roundtrip_witness_c9 :
    get_code (HelloNear.mk "b1") = "b1" ∧ (HelloNear.mk "b2").code = "b2" :=
  ⟨code_roundtrip_c9.1 (HelloNear.mk "x")
      (Env.mk "factory.test" "factory.test" 0) "b1" (HelloNear.mk "b1")
      (by rfl),
   code_roundtrip_c9.2 (HelloNear.mk "x")
      (Env.mk "factory.test" "factory.test" 0)
      (Env.mk "factory.test" "factory.test" 0) "b1" "b2"
      (HelloNear.mk "b1") (HelloNear.mk "b2") (by rfl) (by rfl)⟩

/-- Inversion of a successful dispatch: it can only arise with a
grammar-valid derived name and sufficient attached funds, and its value
is the canonical batch-plus-continuation of `provision_ok_eq`. -/
theorem provision_ok_inv (st : HelloNear) (env : Env)
    (name beneficiary : String) (public_key : Option String) (d : Dispatch)
    (h : create_factory_subaccount_and_deploy st env name beneficiary
      public_key = Except.ok d) :
    validateAccountId (name ++ "." ++ env.currentAccountId) = true ∧
    NEAR_PER_STORAGE * st.code.length ≤ env.attachedDeposit ∧
    d = { batch :=
            { target := name ++ "." ++ env.currentAccountId
              actions :=
                [PromiseAction.createAccount,
                 PromiseAction.transfer env.attachedDeposit,
                 PromiseAction.deployContract st.code,
                 PromiseAction.functionCall "init"
                   (CallArgs.donationInit { beneficiary := beneficiary })
                   NO_DEPOSIT (TGAS * 5)] ++ keyActions public_key }
          continuation :=
            { target := env.currentAccountId
              actions :=
                [PromiseAction.functionCall
                  "create_factory_subaccount_and_deploy_callback"
                  (CallArgs.callback
                    { account := name ++ "." ++ env.currentAccountId
                      user := env.predecessorAccountId
                      attached := env.attachedDeposit })
                  NO_DEPOSIT (TGAS * 5)] } } := by
  by_cases hname : validateAccountId (name ++ "." ++ env.currentAccountId) = true
  · by_cases hfund : NEAR_PER_STORAGE * st.code.length ≤ env.attachedDeposit
    · rw [provision_ok_eq st env name beneficiary public_key hname hfund] at h
      injection h with h
      exact ⟨hname, hfund, h.symm⟩
    · exfalso
      simp [create_factory_subaccount_and_deploy, hname, hfund] at h
  · exfalso
    simp only [Bool.not_eq_true] at hname
    simp [create_factory_subaccount_and_deploy, hname] at h

/-- C1 (amended): every request that passes the name and funding checks
dispatches against the child name a single ordered batch of exactly:
(a) create the child account, (b) transfer the full attached deposit,
(c) deploy the currently stored payload bytes, (d) call the child's
"init" entry point with the caller-supplied beneficiary, with zero
attached deposit and the fixed 5-TGAS gas budget; and (e) a
full-access-key grant for the supplied public key is placed after the
init call, and is included if and only if a non-empty public key was
supplied (JS truthiness makes a supplied empty-string key act as
absent). -/
theorem provision_batch_actions_c1 (st : HelloNear) (env : Env)
    (name beneficiary : String) (public_key : Option String) (d : Dispatch)
    (h : create_factory_subaccount_and_deploy st env name beneficiary
      public_key = Except.ok d) :
    d.batch.target = name ++ "." ++ env.currentAccountId ∧
    d.batch.actions =
      [PromiseAction.createAccount,
       PromiseAction.transfer env.attachedDeposit,
       PromiseAction.deployContract st.code,
       PromiseAction.functionCall "init"
         (CallArgs.donationInit { beneficiary := beneficiary })
         NO_DEPOSIT (TGAS * 5)] ++ keyActions public_key ∧
    ((∃ k, PromiseAction.addFullAccessKey k ∈ d.batch.actions) ↔
      ∃ pk, public_key = some pk ∧ pk ≠ "") := by
  obtain ⟨-, -, rfl⟩ :=
    provision_ok_inv st env name beneficiary public_key d h
  refine ⟨rfl, rfl, ?_⟩
  cases public_key with
  | none => simp [keyActions]
  | some pk =>
      by_cases hpk : pk = ""
      · simp [keyActions, hpk]
      · simp [keyActions, hpk]

/-- Witness for C1: a concrete dispatch with the non-empty key "k"
shows the five actions in order, the key grant last. -/
theorem provision_batch_actions_witness_c1 :
    ∃ d, create_factory_subaccount_and_deploy (HelloNear.mk "x")
        (Env.mk "factory.test" "user.test" (10 ^ 19)) "sub" "bob.test"
        (some "k") = Except.ok d ∧
      d.batch.target = "sub.factory.test" ∧
      d.batch.actions =
        [PromiseAction.createAccount,
         PromiseAction.transfer (10 ^ 19),
         PromiseAction.deployContract "x",
         PromiseAction.functionCall "init"
           (CallArgs.donationInit { beneficiary := "bob.test" })
           NO_DEPOSIT (TGAS * 5)] ++ keyActions (some "k") ∧
      ((∃ k, PromiseAction.addFullAccessKey k ∈ d.batch.actions) ↔
        ∃ pk, (some "k" : Option String) = some pk ∧ pk ≠ "") := by
  refine ⟨_, rfl, ?_⟩
  exact provision_batch_actions_c1 (HelloNear.mk "x")
    (Env.mk "factory.test" "user.test" (10 ^ 19)) "sub" "bob.test" (some "k")
    _ rfl

/-- C1 counterexample: the claim as stated fails for a supplied empty
public key: `public_key = some ""` is a supplied key (`isSome`), yet
the dispatched batch carries no key-grant action, because the source
guards the grant with JS truthiness (`if (public_key)`). -/
theorem provision_empty_key_cex_c1 :
    (some "" : Option String).isSome = true ∧
    create_factory_subaccount_and_deploy (HelloNear.mk "x")
        (Env.mk "factory.test" "user.test" (10 ^ 19)) "sub" "bob.test"
        (some "") =
      Except.ok
        (Dispatch.mk
          (BatchPromise.mk "sub.factory.test"
            [PromiseAction.createAccount,
             PromiseAction.transfer (10 ^ 19),
             PromiseAction.deployContract "x",
             PromiseAction.functionCall "init"
               (CallArgs.donationInit (DonationInitArgs.mk "bob.test"))
               NO_DEPOSIT (TGAS * 5)])
          (BatchPromise.mk "factory.test"
            [PromiseAction.functionCall
              "create_factory_subaccount_and_deploy_callback"
              (CallArgs.callback
                (CallbackArgs.mk "sub.factory.test" "user.test" (10 ^ 19)))
              NO_DEPOSIT (TGAS * 5)])) :=
  ⟨rfl, rfl⟩

set_option maxRecDepth 8192 in
/-- C2 counterexample: Scenario A's numbers contradict the code. The
cost per byte is the fixed `NEAR_PER_STORAGE = 10 ^ 19`, not 10, so
with a 1000-byte payload and 9999 attached the call aborts reporting a
required amount of `10 ^ 22`, not 10000. -/
theorem provision_required_amount_cex_c2 :
    NEAR_PER_STORAGE ≠ 10 ∧
    create_factory_subaccount_and_deploy
        (HelloNear.mk (String.mk (List.replicate 1000 (Char.ofNat 97))))
        (Env.mk "factory.test" "user.test" 9999) "sub" "bob.test" none =
      Except.error (FactoryError.insufficientFunds (10 ^ 22)) ∧
    (10 ^ 22 : Nat) ≠ 10000 :=
  ⟨by decide, by rfl, by decide⟩

/-- C3 counterexample: a short name containing the separator does not
violate the account-id grammar: `"a.b"` derives `"a.b.factory.test"`,
which `validateAccountId` accepts, and provision dispatches a batch
instead of aborting with `InvalidNameError`. -/
theorem provision_dotted_name_cex_c3 :
    ("a.b".data.contains (Char.ofNat 46)) = true ∧
    validateAccountId ("a.b" ++ "." ++ "factory.test") = true ∧
    create_factory_subaccount_and_deploy (HelloNear.mk "x")
        (Env.mk "factory.test" "user.test" (10 ^ 19)) "a.b" "bob.test" none =
      Except.ok
        (Dispatch.mk
          (BatchPromise.mk "a.b.factory.test"
            [PromiseAction.createAccount,
             PromiseAction.transfer (10 ^ 19),
             PromiseAction.deployContract "x",
             PromiseAction.functionCall "init"
               (CallArgs.donationInit (DonationInitArgs.mk "bob.test"))
               NO_DEPOSIT (TGAS * 5)])
          (BatchPromise.mk "factory.test"
            [PromiseAction.functionCall
              "create_factory_subaccount_and_deploy_callback"
              (CallArgs.callback
                (CallbackArgs.mk "a.b.factory.test" "user.test" (10 ^ 19)))
              NO_DEPOSIT (TGAS * 5)])) :=
  ⟨by decide, by decide, by rfl⟩

/-- C4: the reconciliation callback, invoked by the factory itself as
the chained continuation, returns `true` and logs a success record
naming the child when `near.promiseResult(0)` is retrievable, returns
`false` and logs a failure record naming the child, the attached amount
and the requester when that inspection faults, and in both cases
returns a structured boolean rather than raising a fault. -/
theorem callback_branches_c4 (st : HelloNear) (env : Env)
    (account user : String) (attached : Nat)
    (promiseResult : Except Unit String)
    (hpriv : env.predecessorAccountId = env.currentAccountId) :
    (∀ v, promiseResult = Except.ok v →
      create_factory_subaccount_and_deploy_callback st env account user
          attached promiseResult =
        Except.ok
          { state := st, value := true
            logs := ["Correctly created and deployed to " ++ account]
            issued := [] }) ∧
    (promiseResult = Except.error () →
      create_factory_subaccount_and_deploy_callback st env account user
          attached promiseResult =
        Except.ok
          { state := st, value := false
            logs := ["Error creating " ++ account ++ ", returning " ++
              toString attached ++ "yⓃ to " ++ user]
            issued := [] }) ∧
    (∃ r, create_factory_subaccount_and_deploy_callback st env account user
        attached promiseResult = Except.ok r) := by
  refine ⟨fun v hv => ?_, fun hf => ?_, ?_⟩
  · subst hv
    simp [create_factory_subaccount_and_deploy_callback, hpriv]
  · subst hf
    simp [create_factory_subaccount_and_deploy_callback, hpriv]
  · cases promiseResult with
    | ok v =>
        exact ⟨{ state := st, value := true
                 logs := ["Correctly created and deployed to " ++ account]
                 issued := [] },
          by simp [create_factory_subaccount_and_deploy_callback, hpriv]⟩
    | error e =>
        exact ⟨{ state := st, value := false
                 logs := ["Error creating " ++ account ++ ", returning " ++
                   toString attached ++ "yⓃ to " ++ user]
                 issued := [] },
          by simp [create_factory_subaccount_and_deploy_callback, hpriv]⟩

/-- Witness for C4: a faulted inspection of the settled batch yields
`false` and the failure record naming child, amount and requester. -/
theorem callback_branches_witness_c4 :
    create_factory_subaccount_and_deploy_callback (HelloNear.mk "x")
        (Env.mk "factory.test" "factory.test" 0) "sub.factory.test"
        "user.test" 10000 (Except.error ()) =
      Except.ok
        { state := HelloNear.mk "x", value := false
          logs := ["Error creating sub.factory.test, returning 10000yⓃ to user.test"]
          issued := [] } :=
  (callback_branches_c4 _ _ _ _ _ _ rfl).2.1 rfl

/-- C5: on the reconciler's failure branch no promise is issued at all,
in particular no transfer returning the attached funds to the
requester; the contract state is unchanged and the only effect is the
single log record naming the child, the amount and the intended
recipient. -/
theorem callback_no_refund_c5 (st : HelloNear) (env : Env)
    (account user : String) (attached : Nat) (r : CallbackResult)
    (hpriv : env.predecessorAccountId = env.currentAccountId)
    (h : create_factory_subaccount_and_deploy_callback st env account user
      attached (Except.error ()) = Except.ok r) :
    r.issued = [] ∧ r.state = st ∧ r.value = false ∧
    r.logs = ["Error creating " ++ account ++ ", returning " ++
      toString attached ++ "yⓃ to " ++ user] := by
  simp [create_factory_subaccount_and_deploy_callback, hpriv] at h
  subst h
  exact ⟨rfl, rfl, rfl, rfl⟩

/-- Witness for C5: the failed provisioning of `sub.factory.test` with
10000 attached leaves the state as it was, issues nothing, and logs
the unreturned amount and its intended recipient. -/
theorem callback_no_refund_witness_c5 :
    ∃ r, create_factory_subaccount_and_deploy_callback (HelloNear.mk "x")
        (Env.mk "factory.test" "factory.test" 0) "sub.factory.test"
        "user.test" 10000 (Except.error ()) = Except.ok r ∧
      r.issued = [] ∧ r.state = HelloNear.mk "x" ∧ r.value = false ∧
      r.logs = ["Error creating sub.factory.test, returning 10000yⓃ to user.test"] := by
  refine ⟨_, rfl, ?_⟩
  exact callback_no_refund_c5 (HelloNear.mk "x")
    (Env.mk "factory.test" "factory.test" 0) "sub.factory.test" "user.test"
    10000 _ rfl rfl

/-- C6: every successful dispatch chains, to run strictly after the
batch settles regardless of its outcome, a single call of the
reconciliation callback on the factory itself, passing exactly the
derived child name, the requester (`near.predecessorAccountId()`) and
the attached funds as values captured when the dispatch was built, with
zero deposit and the fixed 5-TGAS budget. -/
theorem provision_continuation_c6 (st : HelloNear) (env : Env)
    (name beneficiary : String) (public_key : Option String) (d : Dispatch)
    (h : create_factory_subaccount_and_deploy st env name beneficiary
      public_key = Except.ok d) :
    d.continuation.target = env.currentAccountId ∧
    d.continuation.actions =
      [PromiseAction.functionCall
        "create_factory_subaccount_and_deploy_callback"
        (CallArgs.callback
          { account := name ++ "." ++ env.currentAccountId
            user := env.predecessorAccountId
            attached := env.attachedDeposit })
        NO_DEPOSIT (TGAS * 5)] := by
  obtain ⟨-, -, rfl⟩ :=
    provision_ok_inv st env name beneficiary public_key d h
  exact ⟨rfl, rfl⟩

/-- Witness for C6: the concrete dispatch for `"sub"` chains the
callback on the factory with the captured child name, requester and
amount. -/
theorem provision_continuation_witness_c6 :
    ∃ d, create_factory_subaccount_and_deploy (HelloNear.mk "x")
        (Env.mk "factory.test" "user.test" (10 ^ 19)) "sub" "bob.test" none =
      Except.ok d ∧
      d.continuation.target = "factory.test" ∧
      d.continuation.actions =
        [PromiseAction.functionCall
          "create_factory_subaccount_and_deploy_callback"
          (CallArgs.callback
            (CallbackArgs.mk "sub.factory.test" "user.test" (10 ^ 19)))
          NO_DEPOSIT (TGAS * 5)] := by
  refine ⟨_, rfl, ?_⟩
  exact provision_continuation_c6 (HelloNear.mk "x")
    (Env.mk "factory.test" "user.test" (10 ^ 19)) "sub" "bob.test" none _ rfl

/-- One completed state transition of the contract. Only the two entry
points whose embeddings return a state can move it:
`update_stored_contract` and the callback. `get_code` and
`create_factory_subaccount_and_deploy` take the state read-only in this
embedding, exactly as the source never assigns `this.code` in them, so
they induce no transition; a call that threw rolled back and left the
prior state, so only `Except.ok` outcomes appear here. -/
inductive Step : HelloNear → HelloNear → Prop where
  | update (s : HelloNear) (e : Env) (input : String) (s2 : HelloNear) :
      update_stored_contract s e input = Except.ok s2 → Step s s2
  | callback (s : HelloNear) (e : Env) (account user : String)
      (attached : Nat) (promiseResult : Except Unit String)
      (r : CallbackResult) :
      create_factory_subaccount_and_deploy_callback s e account user
        attached promiseResult = Except.ok r → Step s r.state

/-- Reachable contract states: the state holding the default payload at
deployment, closed under completed state-changing calls. -/
inductive Reachable : HelloNear → Prop where
  | deployed : Reachable (HelloNear.mk DEFAULT_CONTRACT)
  | step (s s2 : HelloNear) : Reachable s → Step s s2 → Reachable s2

/-- C10: in every reachable state the stored payload is non-empty —
it starts as the non-empty default contract, `update_stored_contract`
rejects empty input before writing, and no other operation writes
`code` — so the minimum funding of a provision request is strictly
positive and the specification's empty-store branch (zero minimum, any
attached amount passes) is never taken. -/
theorem code_nonempty_invariant_c10 (st : HelloNear) (h : Reachable st) :
    st.code ≠ "" ∧ 0 < minimumFunding st.code.length := by
  induction h with
  | deployed => exact ⟨by decide, by decide⟩
  | step s s2 hr hs ih =>
      cases hs with
      | update e input s2 hu =>
          obtain ⟨hc, hne⟩ := update_ok_code s e input s2 hu
          rw [hc]
          exact ⟨hne, minimumFunding_pos input hne⟩
      | callback e account user attached promiseResult r hcb =>
          rw [callback_ok_state s e account user attached promiseResult r hcb]
          exact ih

/-- Witness for C10: the deployed initial state is reachable, its
payload is non-empty and its minimum funding positive. -/
theorem code_nonempty_invariant_witness_c10 :
    (HelloNear.mk DEFAULT_CONTRACT).code ≠ "" ∧
    0 < minimumFunding (HelloNear.mk DEFAULT_CONTRACT).code.length :=
  code_nonempty_invariant_c10 (HelloNear.mk DEFAULT_CONTRACT)
    Reachable.deployed
